import Mathlib

/-! ## Data model

Shallow embedding of the three source files: the icon renderer
(TabIcon.tsx), the tab and paging shell (MainTabsScreen.tsx), and the
marketplace listing screen (MarketplaceScreen). JavaScript numbers that hold
prices and animation scales are modelled as exact rationals; fallible
asynchronous calls are modelled as Except values; fire-and-forget side
effects (animation starts, pager commands, service requests) are modelled as
explicit output traces. -/

/-- Product record, with the fields the UI consumes (defined by the external
productService and read here as-is): identifier, name, brand, price, optional
original price, optional rating, optional image reference, viewer count. -/
structure ProductWithImage where
  id : Nat
  name : String
  brand : String
  price : ℚ
  original_price : Option ℚ
  rating : Option ℚ
  image_url : Option String
  viewers_count : Nat
  deriving DecidableEq

/-- JavaScript Math.round: round half toward positive infinity. -/
def jsRound (x : ℚ) : ℤ := ⌊x + 1/2⌋

/-- Discount computation of ProductCard:
const discount = product.original_price
  ? Math.round(((product.original_price - product.price) / product.original_price) * 100)
  : 0
A missing original_price, and the JavaScript-falsy value 0, give discount 0. -/
def discount (product : ProductWithImage) : ℤ :=
  match product.original_price with
  | none => 0
  | some op => if op = 0 then 0 else jsRound ((op - product.price) / op * 100)

/-- The discount badge of a rendered product card:
the card shows a badge with the text -discount% exactly when discount > 0. -/
def discountBadgeView (product : ProductWithImage) : Option ℤ :=
  if 0 < discount product then some (discount product) else none

/-- Condition named by the claim (spec side, for comparison): the product has
an original price strictly greater than its current price. -/
def hasHigherOriginalPrice (product : ProductWithImage) : Bool :=
  match product.original_price with
  | none => false
  | some op => decide (product.price < op)

/-- Amended badge condition (spec side): a nonzero original price exists and
the rounded percentage is strictly positive. -/
def discountBadgeSpecAmended (product : ProductWithImage) : Bool :=
  match product.original_price with
  | none => false
  | some op => decide (op ≠ 0) && decide (0 < jsRound ((op - product.price) / op * 100))

/-! ## Marketplace listing screen: state, loading, refresh, rendering -/

/-- View state of MarketplaceScreen: the loading and refreshing flags, the
three displayed collections, and the diagnostic console log. -/
structure MarketState where
  isLoading : Bool
  refreshing : Bool
  newProducts : List ProductWithImage
  saleProducts : List ProductWithImage
  categories : List String
  errorLog : List String
  deriving DecidableEq

/-- State at mount: loading, nothing displayed. -/
def initialMarketState : MarketState :=
  { isLoading := true, refreshing := false, newProducts := [], saleProducts := [],
    categories := [], errorLog := [] }

/-- Requests the screen can issue to the external product service. -/
inductive SvcCall
  | fetchNewProducts (limit : Nat)
  | fetchFournisseurProducts (limit : Nat)
  | fetchProductCategories
  | fetchAllProducts
  | invalidateProductCaches
  deriving DecidableEq

/-- Results the external service returns during one load cycle: each call
either resolves (ok) or rejects (error, carrying the error text). The service
is treated as deterministic within a cycle, so a repeated fetchAllProducts
fallback sees the same result. -/
structure FetchEnv where
  newRes : Except String (List ProductWithImage)
  fournisseurRes : Except String (List ProductWithImage)
  catsRes : Except String (List String)
  allRes : Except String (List ProductWithImage)
  invalidateRes : Except String Unit

/-- True when an Except value is a rejection. -/
def isErr {ε α : Type} (r : Except ε α) : Bool :=
  match r with
  | Except.error _ => true
  | Except.ok _ => false

/-- Log line written by the catch clause of loadData:
console.error("Error loading marketplace data:", error). -/
def loadErrorLine (e : String) : String := "Error loading marketplace data: " ++ e

/-- The three concurrent requests loadData starts with (Promise.all). -/
def initialLoadCalls : List SvcCall :=
  [SvcCall.fetchNewProducts 10, SvcCall.fetchFournisseurProducts 20,
   SvcCall.fetchProductCategories]

/-- Continuation of loadData after the new-products branch: the fournisseur
(Sale) branch with its fetchAllProducts fallback, then setCategories, then the
finally clause clearing isLoading. A rejection of the awaited fallback is
caught by the surrounding try/catch: it is logged, isLoading is still cleared,
and the later setters do not run. -/
def loadDataSaleStep (env : FetchEnv) (fournisseurProds : List ProductWithImage)
    (cats : List String) (s : MarketState) (calls : List SvcCall) :
    MarketState × List SvcCall :=
  if fournisseurProds.isEmpty then
    match env.allRes with
    | Except.error e =>
        ({ s with errorLog := s.errorLog ++ [loadErrorLine e], isLoading := false },
         calls ++ [SvcCall.fetchAllProducts])
    | Except.ok allProducts =>
        ({ s with saleProducts := allProducts.take 10, categories := cats,
                  isLoading := false },
         calls ++ [SvcCall.fetchAllProducts])
  else
    ({ s with saleProducts := fournisseurProds, categories := cats,
              isLoading := false },
     calls)

/-- The new-products branch of loadData: if the new fetch resolved empty, a
secondary fetchAllProducts is awaited and its first 10 items substitute the
new set; a rejection there is caught (logged, isLoading cleared) before any
later setter runs. -/
def loadDataNewStep (env : FetchEnv) (newProds fournisseurProds : List ProductWithImage)
    (cats : List String) (s : MarketState) : MarketState × List SvcCall :=
  if newProds.isEmpty then
    match env.allRes with
    | Except.error e =>
        ({ s with errorLog := s.errorLog ++ [loadErrorLine e], isLoading := false },
         initialLoadCalls ++ [SvcCall.fetchAllProducts])
    | Except.ok allProducts =>
        loadDataSaleStep env fournisseurProds cats
          { s with newProducts := allProducts.take 10 }
          (initialLoadCalls ++ [SvcCall.fetchAllProducts])
  else
    loadDataSaleStep env fournisseurProds cats
      { s with newProducts := newProds } initialLoadCalls

/-- The load procedure of MarketplaceScreen. Promise.all of the three
concurrent fetches; on success the fallback branches run in order; any
rejection anywhere in the body is caught at the top (console.error) and the
finally clause clears isLoading, so the procedure itself never throws.
Returns the updated view state and the trace of service calls issued, in
order. The rejection Promise.all reports is modelled as the first rejecting
fetch in array order. -/
def loadData (env : FetchEnv) (s : MarketState) : MarketState × List SvcCall :=
  match env.newRes, env.fournisseurRes, env.catsRes with
  | Except.ok newProds, Except.ok fournisseurProds, Except.ok cats =>
      loadDataNewStep env newProds fournisseurProds cats s
  | Except.error e, _, _ =>
      ({ s with errorLog := s.errorLog ++ [loadErrorLine e], isLoading := false },
       initialLoadCalls)
  | _, Except.error e, _ =>
      ({ s with errorLog := s.errorLog ++ [loadErrorLine e], isLoading := false },
       initialLoadCalls)
  | _, _, Except.error e =>
      ({ s with errorLog := s.errorLog ++ [loadErrorLine e], isLoading := false },
       initialLoadCalls)

/-- Pull-to-refresh handler of MarketplaceScreen: set refreshing, await
invalidateProductCaches(), await loadData(), clear refreshing. onRefresh has
no try/catch of its own, so a rejected invalidate aborts it before loadData
and before setRefreshing(false). -/
def onRefresh (env : FetchEnv) (s : MarketState) : MarketState × List SvcCall :=
  match env.invalidateRes with
  | Except.error _ =>
      ({ s with refreshing := true }, [SvcCall.invalidateProductCaches])
  | Except.ok _ =>
      let r := loadData env { s with refreshing := true }
      ({ r.1 with refreshing := false }, SvcCall.invalidateProductCaches :: r.2)

/-- Rendering of one product section: a spinner while loading, the product
cards when the collection is non-empty, else the empty-state message. -/
inductive SectionView
  | spinner
  | cards (products : List ProductWithImage)
  | emptyState
  deriving DecidableEq

/-- Per-section rendering rule of MarketplaceScreen:
isLoading ? spinner : products.length > 0 ? cards : empty-state. -/
def renderSection (isLoading : Bool) (products : List ProductWithImage) : SectionView :=
  if isLoading then SectionView.spinner
  else if 0 < products.length then SectionView.cards products
  else SectionView.emptyState

/-- True when one of the three concurrent requests of Promise.all rejects. -/
def promiseAllRejected (env : FetchEnv) : Bool :=
  isErr env.newRes || isErr env.fournisseurRes || isErr env.catsRes

/-- True when the load cycle encounters some rejected fetch: one of the three
concurrent requests, or a fetchAllProducts fallback that is actually awaited. -/
def cycleRejected (env : FetchEnv) : Bool :=
  promiseAllRejected env ||
    match env.newRes, env.fournisseurRes with
    | Except.ok newProds, Except.ok fournisseurProds =>
        (newProds.isEmpty || fournisseurProds.isEmpty) && isErr env.allRes
    | _, _ => false

/-! ## Tab and paging shell (MainTabsScreen) -/

/-- Static descriptor of one tab button: key, label, icon name. -/
structure TabDescriptor where
  key : String
  label : String
  iconName : String
  deriving DecidableEq

/-- The fixed tab list of MainTabsScreen. -/
def TABS : List TabDescriptor :=
  [{ key := "home", label := "Home", iconName := "home" },
   { key := "shop", label := "Shop", iconName := "shop" },
   { key := "freelance", label := "Freelance", iconName := "freelance" },
   { key := "dashboard", label := "Dashboard", iconName := "dashboard" },
   { key := "profile", label := "Profile", iconName := "profile" }]

/-- Shell state owned by MainTabsScreen: the recorded current page index and
the optional selected product. Animation starts and pager commands are
fire-and-forget outputs, not state. -/
structure ShellState where
  currentPage : Nat
  selectedProduct : Option ProductWithImage
  deriving DecidableEq

/-- Animation commands issued to the animation engine, each acting on the
scale value of one tab: Animated.timing (with a duration in ms) and
Animated.spring. -/
inductive AnimCmd
  | timing (tab : Nat) (toValue : ℚ) (duration : Nat)
  | spring (tab : Nat) (toValue : ℚ)
  deriving DecidableEq

/-- Fire-and-forget outputs of one shell event handler, in issue order:
setPage commands to the paging container and animation starts. -/
structure ShellOutput where
  pagerCmds : List Nat
  animCmds : List AnimCmd
  deriving DecidableEq

/-- Handler of onPageSelected: record the settled position, then spring every
scale value to 1.15 at the new position and to 1 elsewhere. -/
def handlePageSelected (s : ShellState) (position : Nat) : ShellState × ShellOutput :=
  ({ s with currentPage := position },
   { pagerCmds := [],
     animCmds := (List.range TABS.length).map fun i =>
       AnimCmd.spring i (if i = position then 1.15 else 1) })

/-- Handler of a tab button press: an Animated.sequence of a timing shrink of
the pressed tab to 0.85 (100 ms) and a spring rebound to 1.15 when the
pressed index equals the recorded current page, else to 1; then
pagerRef.current?.setPage(index). setCurrentPage is not called here. -/
def handleTabPress (s : ShellState) (index : Nat) : ShellState × ShellOutput :=
  (s,
   { pagerCmds := [index],
     animCmds := [AnimCmd.timing index 0.85 100,
                  AnimCmd.spring index (if s.currentPage = index then 1.15 else 1)] })

/-- Handler the listing screen can call to jump to the cart page (index 2). -/
def handleNavigateToCart (s : ShellState) : ShellState × ShellOutput :=
  (s, { pagerCmds := [2], animCmds := [] })

/-- Handler of a bubbled product press: store the product as selected. -/
def handleProductPress (s : ShellState) (product : ProductWithImage) :
    ShellState × ShellOutput :=
  ({ s with selectedProduct := some product }, { pagerCmds := [], animCmds := [] })

/-- Handler of the back action of the detail view: clear the selection. -/
def handleBackFromProduct (s : ShellState) : ShellState × ShellOutput :=
  ({ s with selectedProduct := none }, { pagerCmds := [], animCmds := [] })

/-- Events the shell reacts to. -/
inductive ShellEvent
  | pageSelected (position : Nat)
  | tabPress (index : Nat)
  | navigateToCart
  | productPress (product : ProductWithImage)
  | backFromProduct

/-- Event dispatch of the shell. -/
def shellStep (s : ShellState) (e : ShellEvent) : ShellState × ShellOutput :=
  match e with
  | ShellEvent.pageSelected p => handlePageSelected s p
  | ShellEvent.tabPress i => handleTabPress s i
  | ShellEvent.navigateToCart => handleNavigateToCart s
  | ShellEvent.productPress p => handleProductPress s p
  | ShellEvent.backFromProduct => handleBackFromProduct s

/-- A tab press followed by the paging container reporting the commanded page
as settled: setPage(index) makes the pager emit onPageSelected(index). -/
def pressThenSettle (s : ShellState) (index : Nat) : ShellState :=
  (handlePageSelected (handleTabPress s index).1 index).1

/-- The last spring target commanded for the given tab in a command list. -/
def springTarget (cmds : List AnimCmd) (tab : Nat) : Option ℚ :=
  (cmds.filterMap fun c =>
    match c with
    | AnimCmd.spring t v => if t = tab then some v else none
    | AnimCmd.timing _ _ _ => none).getLast?

/-! ## Icon renderer (TabIcon) -/

/-- A path element of the produced vector drawing: path data, optional fill,
stroke colour, stroke width, optional transform. Attributes that never vary
(strokeLinecap and strokeLinejoin, both always round) are not modelled. -/
structure SvgPath where
  d : String
  fill : Option String
  stroke : String
  strokeWidth : ℚ
  transform : Option String
  deriving DecidableEq

/-- A circle element of the produced vector drawing. -/
structure SvgCircle where
  cx : ℚ
  cy : ℚ
  r : ℚ
  fill : Option String
  stroke : String
  strokeWidth : ℚ
  deriving DecidableEq

/-- One element of the drawing. -/
inductive SvgElem
  | path (p : SvgPath)
  | circle (c : SvgCircle)
  deriving DecidableEq

/-- The vector drawing TabIcon produces: an Svg of the given width and height
(viewBox 0 0 24 24, fill none) holding its elements. -/
structure SvgDrawing where
  width : ℚ
  height : ℚ
  elems : List SvgElem
  deriving DecidableEq

/-- Constant strokeWidth = 2.5 of TabIcon. -/
def strokeWidthConst : ℚ := 2.5

/-- Constant cornerRadius = 4 of TabIcon (declared and unused in the source). -/
def cornerRadius : ℚ := 4

/-- The renderIcon switch of TabIcon: each of the five known names maps to one
literal shape definition whose only runtime variation is the fill (color when
active, else none) and the stroke substitutions; every other name falls to the
default case and produces no drawing. Total function: it never throws. -/
def renderIcon (name : String) (active : Bool) (size : ℚ) (color : String) :
    Option SvgDrawing :=
  if name = "home" then
    some { width := size, height := size, elems :=
      [SvgElem.path
        { d := "M9.5 21V14.5C9.5 13.9477 9.94772 13.5 10.5 13.5H13.5C14.0523 13.5 14.5 13.9477 14.5 14.5V21M3 9.5L12 3L21 9.5V19.5C21 20.6046 20.1046 21.5 19 21.5H5C3.89543 21.5 3 20.6046 3 19.5V9.5Z",
          fill := some (if active then color else "none"),
          stroke := color,
          strokeWidth := if active then 0 else strokeWidthConst,
          transform := none }] }
  else if name = "shop" then
    some { width := size, height := size, elems :=
      [SvgElem.path
        { d := "M6 6C6 3.79086 7.79086 2 10 2H14C16.2091 2 18 3.79086 18 6V7H20C21.1046 7 22 7.89543 22 9V20C22 21.1046 21.1046 22 20 22H4C2.89543 22 2 21.1046 2 20V9C2 7.89543 2.89543 7 4 7H6V6Z",
          fill := some (if active then color else "none"),
          stroke := color,
          strokeWidth := strokeWidthConst,
          transform := none },
       SvgElem.path
        { d := "M6 7V6C6 3.79086 7.79086 2 10 2H14C16.2091 2 18 3.79086 18 6V7",
          fill := none,
          stroke := color,
          strokeWidth := strokeWidthConst,
          transform := none }] }
  else if name = "freelance" then
    some { width := size, height := size, elems :=
      [SvgElem.path
        { d := "M3 8C3 6.34315 4.34315 5 6 5H18C19.6569 5 21 6.34315 21 8V18C21 19.6569 19.6569 21 18 21H6C4.34315 21 3 19.6569 3 18V8Z",
          fill := some (if active then color else "none"),
          stroke := color,
          strokeWidth := strokeWidthConst,
          transform := none },
       SvgElem.path
        { d := "M8 5V4C8 2.89543 8.89543 2 10 2H14C15.1046 2 16 2.89543 16 4V5",
          fill := none,
          stroke := color,
          strokeWidth := strokeWidthConst,
          transform := none },
       SvgElem.path
        { d := "M3 10H21",
          fill := none,
          stroke := color,
          strokeWidth := strokeWidthConst,
          transform := none }] }
  else if name = "dashboard" then
    some { width := size, height := size, elems :=
      [SvgElem.path
        { d := "M21.7071 2.29289C22.4381 3.02389 22.2556 4.23949 21.3146 4.72684L4.98959 12.8893C3.96733 13.4204 2.8034 12.4721 3.08233 11.3411L4.96719 3.94803C5.11032 3.39171 5.39171 2.89032 5.94803 2.74719L13.3411 0.862326C14.4721 0.583397 15.4204 1.74733 14.8893 2.76959L6.72684 19.0946C6.23949 20.0356 5.02389 20.2181 4.29289 19.4871L2.29289 17.4871C1.90237 17.0966 1.90237 16.4634 2.29289 16.0729L16.0729 2.29289C16.4634 1.90237 17.0966 1.90237 17.4871 2.29289L21.7071 2.29289Z",
          fill := some (if active then color else "none"),
          stroke := color,
          strokeWidth := strokeWidthConst,
          transform := some "rotate(-45 12 12)" },
       SvgElem.path
        { d := "M10.5 13.5L21 3",
          fill := none,
          stroke := color,
          strokeWidth := strokeWidthConst,
          transform := none }] }
  else if name = "profile" then
    some { width := size, height := size, elems :=
      [SvgElem.circle
        { cx := 12, cy := 12, r := 9,
          fill := some (if active then color else "none"),
          stroke := color,
          strokeWidth := strokeWidthConst },
       SvgElem.path
        { d := "M12 12C13.6569 12 15 10.6569 15 9C15 7.34315 13.6569 6 12 6C10.3431 6 9 7.34315 9 9C9 10.6569 10.3431 12 12 12Z",
          fill := some (if active then color else "none"),
          stroke := color,
          strokeWidth := strokeWidthConst,
          transform := none },
       SvgElem.path
        { d := "M6.16797 18.8409C6.70043 16.6229 8.76497 15 11.25 15H12.75C15.235 15 17.2996 16.6229 17.832 18.8409",
          fill := none,
          stroke := color,
          strokeWidth := strokeWidthConst,
          transform := none }] }
  else
    none

/-- A node of the rendered TabIcon output. A badge node is what a rendered
badge would be; the render of TabIcon never produces one. -/
inductive TabIconNode
  | icon (drawing : SvgDrawing)
  | badge (count : Nat)
  deriving DecidableEq

/-- The rendered children of the TabIcon component: the outer View of the
given size holds the renderIcon() result, or nothing when renderIcon yields
none. The declared props of TabIconProps are exactly name, active, size and
color. -/
def tabIconRender (name : String) (active : Bool) (size : ℚ) (color : String) :
    List TabIconNode :=
  match renderIcon name active size color with
  | some drawing => [TabIconNode.icon drawing]
  | none => []

/-- The JSX attributes MainTabsScreen writes on each TabIcon, among them a
badge attribute (pendingCount for the dashboard tab, undefined otherwise)
that TabIconProps does not declare. -/
structure TabIconJsxAttrs where
  name : String
  active : Bool
  size : ℚ
  color : String
  badge : Option Nat
  deriving DecidableEq

/-- COLORS.iconActive of MainTabsScreen. -/
def colorsIconActive : String := "#FFFFFF"

/-- COLORS.iconInactive of MainTabsScreen. -/
def colorsIconInactive : String := "#4A4A4A"

/-- The TabIcon attributes of one tab button in the TABS.map render of
MainTabsScreen (active and color follow currentPage, size 22, badge only on
the dashboard tab). -/
def mainTabsIconAttrs (currentPage pendingCount index : Nat) (tab : TabDescriptor) :
    TabIconJsxAttrs :=
  { name := tab.iconName,
    active := decide (currentPage = index),
    size := 22,
    color := if currentPage = index then colorsIconActive else colorsIconInactive,
    badge := if tab.key = "dashboard" then some pendingCount else none }

/-- Rendering one TabIcon from the written JSX attributes: the component reads
only the props its interface declares, so the badge attribute has no
counterpart inside and is dropped. -/
def tabIconRenderFromAttrs (a : TabIconJsxAttrs) : List TabIconNode :=
  tabIconRender a.name a.active a.size a.color

/-- All icon nodes the bottom tab bar renders, across the five tab buttons,
given the recorded current page and the pending notification count from the
realtime orders subscription. -/
def renderTabBar (currentPage pendingCount : Nat) : List TabIconNode :=
  (TABS.enum.map fun p =>
    tabIconRenderFromAttrs (mainTabsIconAttrs currentPage pendingCount p.1 p.2)).flatten

/-- True for a badge node. -/
def isBadgeNode (n : TabIconNode) : Bool :=
  match n with
  | TabIconNode.badge _ => true
  | TabIconNode.icon _ => false

/-- True when a rendered node list shows a badge. -/
def displaysBadge (nodes : List TabIconNode) : Bool := nodes.any isBadgeNode

/-! ## Concrete fixtures used by witnesses and counterexamples -/

/-- Product priced 996 with original price 1000: the original price is higher,
yet the rounded discount percentage is round(0.4) = 0. -/
def smallDiscountProduct : ProductWithImage :=
  { id := 1, name := "Watch", brand := "Brand", price := 996,
    original_price := some 1000, rating := none, image_url := none,
    viewers_count := 0 }

/-- Product with original price equal to its price. -/
def equalPriceProduct : ProductWithImage :=
  { id := 2, name := "Bag", brand := "Brand", price := 1000,
    original_price := some 1000, rating := none, image_url := none,
    viewers_count := 0 }

/-- Product priced 750 with original price 1000 (discount 25). -/
def quarterOffProduct : ProductWithImage :=
  { id := 3, name := "Shoes", brand := "Brand", price := 750,
    original_price := some 1000, rating := none, image_url := none,
    viewers_count := 0 }

/-- Catalog item number n. -/
def sampleProduct (n : Nat) : ProductWithImage :=
  { id := n, name := "Product " ++ toString n, brand := "Brand", price := 100,
    original_price := none, rating := none, image_url := none,
    viewers_count := 0 }

/-- A 25-item full catalog. -/
def sampleCatalog : List ProductWithImage := (List.range 25).map sampleProduct

/-- Environment of a successful load cycle whose new-items fetch resolves
empty: the secondary full-catalog fetch returns the 25-item catalog. -/
def emptyNewEnv : FetchEnv :=
  { newRes := Except.ok [], fournisseurRes := Except.ok [sampleProduct 100],
    catsRes := Except.ok ["Watches"], allRes := Except.ok sampleCatalog,
    invalidateRes := Except.ok () }

/-- Environment whose new-items fetch rejects (the other results are never
reached by Promise.all). -/
def failingNewEnv : FetchEnv :=
  { newRes := Except.error "network down", fournisseurRes := Except.ok [],
    catsRes := Except.ok [], allRes := Except.ok [], invalidateRes := Except.ok () }

/-- View state of a screen that had already displayed one loaded product when
a realtime re-sync reload starts. -/
def previouslyLoadedState : MarketState :=
  { isLoading := false, refreshing := false,
    newProducts := [quarterOffProduct], saleProducts := [quarterOffProduct],
    categories := ["Watches"], errorLog := [] }

/-- Environment of a cycle whose three concurrent fetches resolve (new items
non-empty, fournisseur items empty) but whose fetchAllProducts fallback
rejects: the rejection happens after setNewProducts ran and before the sale
and category setters. -/
def fallbackFailEnv : FetchEnv :=
  { newRes := Except.ok [smallDiscountProduct], fournisseurRes := Except.ok [],
    catsRes := Except.ok ["Bags"], allRes := Except.error "network down",
    invalidateRes := Except.ok () }

/-- Shell state at mount: page 0, no product selected. -/
def shellState0 : ShellState := { currentPage := 0, selectedProduct := none }

/-! ## Theorems -/

/-- Helper: the rendered output of one TabIcon never contains a badge node,
whatever its props. -/
theorem tabIconRender_no_badge (name : String) (active : Bool) (size : ℚ)
    (color : String) :
    (tabIconRender name active size color).any isBadgeNode = false := by
  unfold tabIconRender
  cases renderIcon name active size color <;> simp [isBadgeNode]

/-- C1. The claim says the pending notification count is displayed as a badge
on the dashboard tab icon. The code passes the count as a badge attribute, but
TabIconProps declares no badge prop and the render of TabIcon emits no badge
element, so for every current page and every pending count the rendered tab
bar contains no badge at all. -/
theorem c1_pending_count_badge_never_rendered (currentPage pendingCount : Nat) :
    displaysBadge (renderTabBar currentPage pendingCount) = false := by
  simp [renderTabBar, TABS, displaysBadge, tabIconRenderFromAttrs,
    tabIconRender_no_badge]
  intro x i t _ hrender n hn
  have h := tabIconRender_no_badge (mainTabsIconAttrs currentPage pendingCount i t).name
      (mainTabsIconAttrs currentPage pendingCount i t).active
      (mainTabsIconAttrs currentPage pendingCount i t).size
      (mainTabsIconAttrs currentPage pendingCount i t).color
  rw [hrender] at h
  simpa using List.any_eq_false.mp h n hn

/-- Spec example: original price 1000 and price 750 give discount 25. -/
theorem discount_quarter_off : discount quarterOffProduct = 25 := by
  norm_num [discount, quarterOffProduct, jsRound]

/-- C2 counterexample: the product priced 996 with original price 1000 has an
original price strictly greater than its price, yet round(100 * 4 / 1000) = 0,
so no discount badge is shown — the claimed "exactly when original price
exceeds price" fails. -/
theorem c2_counterexample_small_discount :
    hasHigherOriginalPrice smallDiscountProduct = true ∧
    discountBadgeView smallDiscountProduct = none := by
  constructor
  · norm_num [hasHigherOriginalPrice, smallDiscountProduct]
  · norm_num [discountBadgeView, discount, smallDiscountProduct, jsRound]

/-- C2 amended: the discount badge is displayed exactly when the product has a
nonzero original price and round(100 * (original_price - price) /
original_price) is strictly positive; the badge then shows that rounded value;
in particular a product whose original price equals its price shows none. -/
theorem c2_discount_badge_amended (product : ProductWithImage) :
    (discountBadgeView product).isSome = discountBadgeSpecAmended product ∧
    (product.original_price = some product.price → discountBadgeView product = none) ∧
    (∀ op : ℚ, product.original_price = some op →
      discountBadgeSpecAmended product = true →
      discountBadgeView product = some (jsRound ((op - product.price) / op * 100))) := by
  obtain ⟨i, nm, br, price, op?, rat, img, vc⟩ := product
  cases op? with
  | none => simp [discountBadgeView, discount, discountBadgeSpecAmended]
  | some op =>
    by_cases hz : op = 0
    · subst hz
      simp [discountBadgeView, discount, discountBadgeSpecAmended]
    · by_cases hd : 0 < jsRound ((op - price) / op * 100)
      · refine ⟨?_, ?_, ?_⟩
        · simp [discountBadgeView, discount, discountBadgeSpecAmended, hz, hd]
        · intro heq
          have hop : op = price := by injection heq
          subst hop
          have : jsRound ((op - op) / op * 100) = 0 := by
            norm_num [jsRound]
          omega
        · intro op2 hop2 _
          have : op2 = op := by injection hop2 with h2; exact h2.symm
          subst this
          simp [discountBadgeView, discount, hz, hd]
      · refine ⟨?_, ?_, ?_⟩
        · simp [discountBadgeView, discount, discountBadgeSpecAmended, hz, hd]
        · intro _
          simp [discountBadgeView, discount, hz, hd]
        · intro op2 hop2 hspec
          have : op2 = op := by injection hop2 with h2; exact h2.symm
          subst this
          simp [discountBadgeSpecAmended, hz, hd] at hspec

/-- C3 counterexample: pressing tab 1 while page 0 is current. Tab 1 does
become the current page once the commanded jump settles, yet the rebound
spring of the press targets the normal scale 1, not the enlarged 1.15 the
claim requires for a tab that becomes current. -/
theorem c3_counterexample_press_noncurrent :
    (pressThenSettle shellState0 1).currentPage = 1 ∧
    springTarget (handleTabPress shellState0 1).2.animCmds 1 = some 1 ∧
    (1 : ℚ) ≠ 1.15 := by
  refine ⟨rfl, rfl, by norm_num⟩

/-- C3 amended: pressing tab button i plays a press feedback animation on tab
i that first shrinks its scale to 0.85 and then rebounds it to the enlarged
scale 1.15 if i equals the recorded current page at press time, or to the
normal scale 1 otherwise; the pressed tab still becomes the current page when
the commanded jump settles. -/
theorem c3_press_animation_amended (s : ShellState) (i : Nat) :
    (handleTabPress s i).2.animCmds =
      [AnimCmd.timing i 0.85 100,
       AnimCmd.spring i (if s.currentPage = i then 1.15 else 1)] ∧
    (pressThenSettle s i).currentPage = i :=
  ⟨rfl, rfl⟩

/-- C4. A press of tab button i sends exactly the one command setPage(i) to
the paging container and leaves the recorded current page unchanged; over all
shell events, the recorded index changes only through a pageSelected event,
which sets it to the reported position. -/
theorem c4_press_jumps_once_index_unchanged (s : ShellState) (i : Nat) :
    (shellStep s (ShellEvent.tabPress i)).2.pagerCmds = [i] ∧
    (shellStep s (ShellEvent.tabPress i)).1.currentPage = s.currentPage ∧
    ∀ e : ShellEvent, (shellStep s e).1.currentPage ≠ s.currentPage →
      ∃ p, e = ShellEvent.pageSelected p ∧ (shellStep s e).1.currentPage = p := by
  refine ⟨rfl, rfl, ?_⟩
  intro e he
  cases e with
  | pageSelected p => exact ⟨p, rfl, rfl⟩
  | tabPress j => exact absurd rfl he
  | navigateToCart => exact absurd rfl he
  | productPress pr => exact absurd rfl he
  | backFromProduct => exact absurd rfl he

/-- C8. After a swipe-complete event reporting settled position p (a valid
page index), the recorded current page equals p, the spring target of tab p is
the enlarged scale 1.15, the spring target of every other tab is the normal
scale 1, and p is the only tab index among the five whose target is 1.15. -/
theorem c8_page_selected_enlarges_exactly_one (s : ShellState) (p : Nat)
    (hp : p < 5) :
    (handlePageSelected s p).1.currentPage = p ∧
    springTarget (handlePageSelected s p).2.animCmds p = some 1.15 ∧
    (∀ i, i < 5 → i ≠ p →
      springTarget (handlePageSelected s p).2.animCmds i = some 1) ∧
    ((List.range 5).filter fun i =>
        springTarget (handlePageSelected s p).2.animCmds i = some (1.15 : ℚ)) = [p] := by
  refine ⟨rfl, ?_, ?_, ?_⟩
  · interval_cases p <;> rfl
  · intro i hi hne
    interval_cases p <;> interval_cases i <;>
      first
      | exact absurd rfl hne
      | rfl
  · interval_cases p <;>
      norm_num [handlePageSelected, TABS, springTarget, List.range_succ,
        List.filter]

/-- C8 witness: the swipe-complete event at position 2 from page 0. -/
theorem c8_page_selected_witness :
    (handlePageSelected shellState0 2).1.currentPage = 2 ∧
    springTarget (handlePageSelected shellState0 2).2.animCmds 2 = some 1.15 ∧
    (∀ i, i < 5 → i ≠ 2 →
      springTarget (handlePageSelected shellState0 2).2.animCmds i = some 1) ∧
    ((List.range 5).filter fun i =>
        springTarget (handlePageSelected shellState0 2).2.animCmds i = some (1.15 : ℚ)) = [2] :=
  c8_page_selected_enlarges_exactly_one shellState0 2 (by decide)

/-- C9. For every icon name outside the five known ones, renderIcon produces
no drawing; being a total function of the embedding, it throws nothing. -/
theorem c9_unknown_icon_renders_nothing (name : String) (active : Bool)
    (size : ℚ) (color : String)
    (h : name ∉ ["home", "shop", "freelance", "dashboard", "profile"]) :
    renderIcon name active size color = none := by
  simp only [List.mem_cons, List.mem_singleton, not_or] at h
  obtain ⟨h1, h2, h3, h4, h5⟩ := h
  simp [renderIcon, h1, h2, h3, h4, h5]

/-- C9 witness: the name cart (a page with no tab button) is unknown to the
icon renderer and yields no drawing. -/
theorem c9_unknown_icon_witness :
    renderIcon "cart" true 22 "#FFFFFF" = none :=
  c9_unknown_icon_renders_nothing "cart" true 22 "#FFFFFF" (by decide)

/-- Helper: the load procedure never touches the refreshing flag. -/
theorem loadData_refreshing (env : FetchEnv) (s : MarketState) :
    (loadData env s).1.refreshing = s.refreshing := by
  rcases env with ⟨nr, fr, cr, ar, ir⟩
  cases nr with
  | error e => cases fr <;> cases cr <;> rfl
  | ok newProds =>
    cases fr with
    | error e => cases cr <;> rfl
    | ok fournisseurProds =>
      cases cr with
      | error e => rfl
      | ok cats =>
        simp only [loadData, loadDataNewStep, loadDataSaleStep]
        by_cases hn : newProds.isEmpty <;> by_cases hf : fournisseurProds.isEmpty <;>
          cases ar <;> simp [hn, hf]

/-- Helper: the finally clause of the load procedure always ends with the
loading flag cleared, whatever happened inside. -/
theorem loadData_isLoading (env : FetchEnv) (s : MarketState) :
    (loadData env s).1.isLoading = false := by
  rcases env with ⟨nr, fr, cr, ar, ir⟩
  cases nr with
  | error e => cases fr <;> cases cr <;> rfl
  | ok newProds =>
    cases fr with
    | error e => cases cr <;> rfl
    | ok fournisseurProds =>
      cases cr with
      | error e => rfl
      | ok cats =>
        simp only [loadData, loadDataNewStep, loadDataSaleStep]
        by_cases hn : newProds.isEmpty <;> by_cases hf : fournisseurProds.isEmpty <;>
          cases ar <;> simp [hn, hf]

/-- C5. When the new-items fetch of a load cycle resolves empty and the other
requests resolve, the screen issues the secondary full-catalog fetch and the
displayed new section becomes exactly the first 10 items of the catalog. -/
theorem c5_empty_new_takes_catalog_prefix (env : FetchEnv) (s : MarketState)
    (fp : List ProductWithImage) (cs : List String)
    (catalog : List ProductWithImage)
    (hnew : env.newRes = Except.ok []) (hf : env.fournisseurRes = Except.ok fp)
    (hc : env.catsRes = Except.ok cs) (hall : env.allRes = Except.ok catalog)
    (hcat : catalog ≠ []) :
    SvcCall.fetchAllProducts ∈ (loadData env s).2 ∧
    (loadData env s).1.newProducts = catalog.take 10 ∧
    renderSection (loadData env s).1.isLoading (loadData env s).1.newProducts =
      SectionView.cards (catalog.take 10) := by
  rcases env with ⟨nr, fr, cr, ar, ir⟩
  simp only at hnew hf hc hall
  subst hnew; subst hf; subst hc; subst hall
  have hlen : 0 < catalog.length := List.length_pos.mpr hcat
  have htake : 0 < (catalog.take 10).length := by
    simp only [List.length_take]
    omega
  by_cases hfp : fp.isEmpty <;>
    simp [loadData, loadDataNewStep, loadDataSaleStep, initialLoadCalls,
      renderSection, hfp, htake, hcat]

/-- C5 witness: empty new-items result and a 25-item catalog give exactly its
first 10 items as the displayed new section. -/
theorem c5_empty_new_witness :
    sampleCatalog.length = 25 ∧
    SvcCall.fetchAllProducts ∈ (loadData emptyNewEnv initialMarketState).2 ∧
    (loadData emptyNewEnv initialMarketState).1.newProducts = sampleCatalog.take 10 ∧
    renderSection (loadData emptyNewEnv initialMarketState).1.isLoading
        (loadData emptyNewEnv initialMarketState).1.newProducts =
      SectionView.cards (sampleCatalog.take 10) := by
  have h := c5_empty_new_takes_catalog_prefix emptyNewEnv initialMarketState
    [sampleProduct 100] ["Watches"] sampleCatalog rfl rfl rfl rfl
    (by simp [sampleCatalog])
  exact ⟨by simp [sampleCatalog], h.1, h.2.1, h.2.2⟩

/-- C6 counterexample: a realtime re-sync reload whose new-items fetch rejects
while the screen already displays one product. The rejection is caught and
logged and the loading flag stays cleared, but the new section keeps rendering
the previously displayed card, not the empty state the claim requires. -/
theorem c6_counterexample_previous_data_kept :
    cycleRejected failingNewEnv = true ∧
    (loadData failingNewEnv previouslyLoadedState).1.errorLog.length = 1 ∧
    (loadData failingNewEnv previouslyLoadedState).1.isLoading = false ∧
    renderSection (loadData failingNewEnv previouslyLoadedState).1.isLoading
        (loadData failingNewEnv previouslyLoadedState).1.newProducts =
      SectionView.cards [quarterOffProduct] ∧
    SectionView.cards [quarterOffProduct] ≠ SectionView.emptyState := by
  refine ⟨rfl, rfl, rfl, rfl, by simp⟩

/-- C6 amended: every rejected data fetch of a load cycle is caught and
logged (the diagnostic log grows by exactly one line), the loading flag is
cleared, and no error propagates to the view (the load procedure of the
embedding is total); each displayed collection keeps the value it had at the
rejection point — the sale and category collections are never modified in a
rejecting cycle, and the new collection is either untouched or holds exactly
the resolved new-items result assigned before a fallback rejection — so each
section then renders the empty state exactly when its collection is empty (as
on a first load, where the collections start empty) and keeps displaying the
retained cards otherwise. -/
theorem c6_load_failure_caught_and_logged (env : FetchEnv) (s : MarketState)
    (h : cycleRejected env = true) :
    (loadData env s).1.isLoading = false ∧
    (loadData env s).1.errorLog.length = s.errorLog.length + 1 ∧
    ((loadData env s).1.newProducts = s.newProducts ∨
      env.newRes = Except.ok ((loadData env s).1.newProducts)) ∧
    (loadData env s).1.saleProducts = s.saleProducts ∧
    (loadData env s).1.categories = s.categories ∧
    (renderSection (loadData env s).1.isLoading (loadData env s).1.newProducts =
      if (loadData env s).1.newProducts = [] then SectionView.emptyState
      else SectionView.cards (loadData env s).1.newProducts) ∧
    (renderSection (loadData env s).1.isLoading (loadData env s).1.saleProducts =
      if (loadData env s).1.saleProducts = [] then SectionView.emptyState
      else SectionView.cards (loadData env s).1.saleProducts) := by
  have hload : (loadData env s).1.isLoading = false := loadData_isLoading env s
  have hrender : ∀ c : List ProductWithImage,
      renderSection (loadData env s).1.isLoading c =
        if c = [] then SectionView.emptyState else SectionView.cards c := by
    intro c
    rw [hload]
    cases c with
    | nil => rfl
    | cons a l => simp [renderSection]
  have hrest : (loadData env s).1.errorLog.length = s.errorLog.length + 1 ∧
      ((loadData env s).1.newProducts = s.newProducts ∨
        env.newRes = Except.ok ((loadData env s).1.newProducts)) ∧
      (loadData env s).1.saleProducts = s.saleProducts ∧
      (loadData env s).1.categories = s.categories := by
    rcases env with ⟨nr, fr, cr, ar, ir⟩
    cases nr with
    | error e =>
      cases fr <;> cases cr <;> exact ⟨by simp [loadData], Or.inl rfl, rfl, rfl⟩
    | ok newProds =>
      cases fr with
      | error e =>
        cases cr <;> exact ⟨by simp [loadData], Or.inl rfl, rfl, rfl⟩
      | ok fournisseurProds =>
        cases cr with
        | error e => exact ⟨by simp [loadData], Or.inl rfl, rfl, rfl⟩
        | ok cats =>
          cases ar with
          | ok allProducts =>
            simp [cycleRejected, promiseAllRejected, isErr] at h
          | error e =>
            simp only [cycleRejected, promiseAllRejected, isErr, Bool.false_or,
              Bool.and_eq_true, Bool.or_eq_true] at h
            by_cases hn : newProds.isEmpty
            · refine ⟨?_, Or.inl ?_, ?_, ?_⟩ <;>
                simp [loadData, loadDataNewStep, loadDataSaleStep, hn]
            · have hf : fournisseurProds.isEmpty = true := by
                rcases h.1 with h1 | h1
                · exact absurd h1 hn
                · exact h1
              refine ⟨?_, Or.inr ?_, ?_, ?_⟩ <;>
                simp [loadData, loadDataNewStep, loadDataSaleStep, hn, hf]
  exact ⟨hload, hrest.1, hrest.2.1, hrest.2.2.1, hrest.2.2.2, hrender _, hrender _⟩

/-- C6 witness: the load cycle with the rejecting new-items fetch, starting
from the previously populated view state. -/
theorem c6_load_failure_witness :
    (loadData failingNewEnv previouslyLoadedState).1.isLoading = false ∧
    (loadData failingNewEnv previouslyLoadedState).1.errorLog.length =
      previouslyLoadedState.errorLog.length + 1 ∧
    ((loadData failingNewEnv previouslyLoadedState).1.newProducts =
        previouslyLoadedState.newProducts ∨
      failingNewEnv.newRes =
        Except.ok ((loadData failingNewEnv previouslyLoadedState).1.newProducts)) ∧
    (loadData failingNewEnv previouslyLoadedState).1.saleProducts =
      previouslyLoadedState.saleProducts ∧
    (loadData failingNewEnv previouslyLoadedState).1.categories =
      previouslyLoadedState.categories ∧
    (renderSection (loadData failingNewEnv previouslyLoadedState).1.isLoading
        (loadData failingNewEnv previouslyLoadedState).1.newProducts =
      if (loadData failingNewEnv previouslyLoadedState).1.newProducts = []
      then SectionView.emptyState
      else SectionView.cards
        (loadData failingNewEnv previouslyLoadedState).1.newProducts) ∧
    (renderSection (loadData failingNewEnv previouslyLoadedState).1.isLoading
        (loadData failingNewEnv previouslyLoadedState).1.saleProducts =
      if (loadData failingNewEnv previouslyLoadedState).1.saleProducts = []
      then SectionView.emptyState
      else SectionView.cards
        (loadData failingNewEnv previouslyLoadedState).1.saleProducts) :=
  c6_load_failure_caught_and_logged failingNewEnv previouslyLoadedState rfl

/-- Fallback-rejection retention, evaluated: when the three concurrent fetches
resolve (new items non-empty, fournisseur items empty) but the awaited
fetchAllProducts fallback rejects, the new collection holds exactly the
already assigned new-items result, the sale and category collections keep
their previous values, the rejection is logged once and the loading flag is
cleared. -/
theorem fallback_rejection_retains_assigned_data :
    (loadData fallbackFailEnv previouslyLoadedState).1.newProducts =
      [smallDiscountProduct] ∧
    (loadData fallbackFailEnv previouslyLoadedState).1.saleProducts =
      previouslyLoadedState.saleProducts ∧
    (loadData fallbackFailEnv previouslyLoadedState).1.categories =
      previouslyLoadedState.categories ∧
    (loadData fallbackFailEnv previouslyLoadedState).1.errorLog.length = 1 ∧
    (loadData fallbackFailEnv previouslyLoadedState).1.isLoading = false :=
  ⟨rfl, rfl, rfl, rfl, rfl⟩

/-- C7. Every pull-to-refresh invocation issues the cache invalidation as its
first service call — so before reissuing any of the three initial-load
requests — and the refreshing indicator stays set throughout the reissued
load procedure; when the invalidation resolves, the whole call trace is the
invalidation followed by the load-cycle calls and the indicator is cleared at
the end. -/
theorem c7_refresh_invalidates_before_reload (env : FetchEnv) (s : MarketState) :
    (onRefresh env s).2.head? = some SvcCall.invalidateProductCaches ∧
    (loadData env { s with refreshing := true }).1.refreshing = true ∧
    (env.invalidateRes = Except.ok () →
      (onRefresh env s).2 =
        SvcCall.invalidateProductCaches ::
          (loadData env { s with refreshing := true }).2 ∧
      (onRefresh env s).1.refreshing = false) := by
  refine ⟨?_, ?_, ?_⟩
  · unfold onRefresh
    cases env.invalidateRes <;> rfl
  · rw [loadData_refreshing]
  · intro hok
    unfold onRefresh
    rw [hok]
    exact ⟨rfl, rfl⟩

/-- C10. When one of the three concurrent requests of a load cycle rejects,
Promise.all rejects before any setter runs: the three displayed collections
and the refreshing flag keep their previous values and only the loading flag
(cleared by the finally clause) and the diagnostic log change. -/
theorem c10_concurrent_rejection_keeps_collections (env : FetchEnv)
    (s : MarketState) (h : promiseAllRejected env = true) :
    (loadData env s).1.newProducts = s.newProducts ∧
    (loadData env s).1.saleProducts = s.saleProducts ∧
    (loadData env s).1.categories = s.categories ∧
    (loadData env s).1.refreshing = s.refreshing ∧
    (loadData env s).1.isLoading = false := by
  rcases env with ⟨nr, fr, cr, ar, ir⟩
  cases nr with
  | error e => cases fr <;> cases cr <;> exact ⟨rfl, rfl, rfl, rfl, rfl⟩
  | ok newProds =>
    cases fr with
    | error e => cases cr <;> exact ⟨rfl, rfl, rfl, rfl, rfl⟩
    | ok fournisseurProds =>
      cases cr with
      | error e => exact ⟨rfl, rfl, rfl, rfl, rfl⟩
      | ok cats => simp [promiseAllRejected, isErr] at h

/-- C10 witness: the rejecting new-items fetch leaves all three displayed
collections of the previously populated state untouched. -/
theorem c10_concurrent_rejection_witness :
    (loadData failingNewEnv previouslyLoadedState).1.newProducts =
      previouslyLoadedState.newProducts ∧
    (loadData failingNewEnv previouslyLoadedState).1.saleProducts =
      previouslyLoadedState.saleProducts ∧
    (loadData failingNewEnv previouslyLoadedState).1.categories =
      previouslyLoadedState.categories ∧
    (loadData failingNewEnv previouslyLoadedState).1.refreshing =
      previouslyLoadedState.refreshing ∧
    (loadData failingNewEnv previouslyLoadedState).1.isLoading = false :=
  c10_concurrent_rejection_keeps_collections failingNewEnv previouslyLoadedState rfl
